import Mathlib

/-!
A verification development for the `router-service` crate: a request-routing
layer mapping (HTTP method, path) to asynchronous handlers.

The embedding follows the source files:
* `src/handler.rs` — the type-erased handler newtype (`AsyncUnsyncHandler`);
  since the dispatch algorithm is synchronous and the returned future resolves
  to exactly the handler's own `Result`, a handler is embedded as a function
  `Request → RouteContext → Except Error Response`.
* `src/unsync.rs` — `Route`, `Router`, the registration operations
  (`get` … `patch`, `any`, `insert_handler`), `Clone for Router` and
  `RouteContext::param`.  The `Arc<RwLock<…>>` holding the route table is
  embedded as an index (`inner`) into an explicit heap of tables (`Tables`),
  so that clones sharing the allocation are clones sharing the index.
  `HashMap` is embedded as an association list whose `insert` overwrites the
  binding of an existing key in place and whose `get` takes the first binding.
* `src/service.rs` — `Service::call` (dispatch) and the default-404 branch,
  including the `http::Response` builder whose `body(…)` returns a `Result`
  that the source unwraps.

The path matcher (`matchit`) is an external dependency, not part of the
repository; it is modelled from the spec's external-interface contract
(§6: literal segments, `:name` parameters, trailing `*name` wildcard; the
match yields the stored value and the list of captured (name, value) pairs).
-/

namespace RouterService

/-- HTTP methods, mirroring the `http::Method` constants used by the crate. -/
inductive Method where
  | GET
  | POST
  | PUT
  | DELETE
  | HEAD
  | OPTIONS
  | PATCH
  | CONNECT
  | TRACE
  deriving DecidableEq, Repr

/-- An incoming request; the core only ever inspects its method and path. -/
structure Request (Body : Type) where
  method : Method
  path : String
  body : Body

/-- A response: a status code plus a body. -/
structure Response (Body : Type) where
  status : Nat
  body : Body
  deriving DecidableEq

/-- `http::StatusCode`: only codes in `100..=999` are representable. -/
def StatusCode : Type := { n : Nat // 100 ≤ n ∧ n ≤ 999 }

/-- `StatusCode::NOT_FOUND` (404). -/
def StatusCode.NOT_FOUND : StatusCode := ⟨404, by decide⟩

/-- Abstract stand-in for `http::Error` (the response builder's error type). -/
inductive HttpError where
  | invalid
  deriving DecidableEq

/-- `http::response::Builder`: accumulates a status and a possible error. -/
structure ResponseBuilder where
  statusVal : Nat
  err : Option HttpError

/-- `Response::builder()` starts from status 200 and no recorded error. -/
def Response.builder : ResponseBuilder :=
  { statusVal := 200, err := none }

/-- `Builder::status` applied to an already-valid `StatusCode` records the
code and cannot record an error (the `TryInto<StatusCode>` conversion from a
`StatusCode` is infallible). -/
def ResponseBuilder.status (b : ResponseBuilder) (s : StatusCode) : ResponseBuilder :=
  { b with statusVal := s.val }

/-- `Builder::body` finalizes the builder, failing exactly when an error was
recorded earlier. -/
def ResponseBuilder.body {Body : Type} (b : ResponseBuilder) (bd : Body) :
    Except HttpError (Response Body) :=
  match b.err with
  | some e => Except.error e
  | none => Except.ok { status := b.statusVal, body := bd }

/-- The per-request context handed to handlers (`unsync::RouteContext`). -/
structure RouteContext (Data : Type) where
  data : Data
  params : List (String × String)

/-- The type-erased handler (`handler::AsyncUnsyncHandler`).  Invoking it and
driving the returned future to completion yields the handler's own `Result`,
embedded as `Except`. -/
structure AsyncUnsyncHandler (Body Data Error : Type) where
  fn : Request Body → RouteContext Data → Except Error (Response Body)

/-- `HashMap::insert`: overwrite the binding of an existing key in place,
otherwise add a new binding. -/
def hmInsert {K V : Type} [DecidableEq K] : List (K × V) → K → V → List (K × V)
  | [], k, v => [(k, v)]
  | (k', v') :: rest, k, v =>
    if k' = k then (k, v) :: rest else (k', v') :: hmInsert rest k v

/-- `HashMap::get`: the first binding of the key, if any. -/
def hmGet {K V : Type} [DecidableEq K] : List (K × V) → K → Option V
  | [], _ => none
  | (k', v') :: rest, k => if k' = k then some v' else hmGet rest k

/-- The per-pattern record (`unsync::Route`): method-keyed handlers plus an
optional catchall. -/
structure Route (Body Data Error : Type) where
  handlers : List (Method × AsyncUnsyncHandler Body Data Error)
  catchall : Option (AsyncUnsyncHandler Body Data Error)

/-- Modelled from the spec: the external path matcher splits a path into
`/`-separated segments. -/
def splitSegs : List Char → List (List Char)
  | [] => [[]]
  | c :: cs =>
    if c = '/' then [] :: splitSegs cs
    else
      match splitSegs cs with
      | [] => [[c]]
      | s :: ss => (c :: s) :: ss

/-- Modelled from the spec: rejoin path segments with `/` (used for the
remainder captured by a trailing wildcard). -/
def joinSegs : List (List Char) → List Char
  | [] => []
  | [s] => s
  | s :: ss => s ++ '/' :: joinSegs ss

/-- Modelled from the spec: match pattern segments against path segments.
A literal segment matches itself, a `:name` segment matches any non-empty
segment and captures it, and a trailing `*name` segment captures the whole
remainder of the path.  Returns the ordered list of captured
(parameter-name, value) pairs. -/
def matchSegs : List (List Char) → List (List Char) → Option (List (String × String))
  | [], [] => some []
  | p :: ps, q :: qs =>
    match p with
    | '*' :: name =>
      if ps.isEmpty then
        some [(String.mk name, String.mk (joinSegs (q :: qs)))]
      else
        none
    | ':' :: name =>
      if q.isEmpty then
        none
      else
        (matchSegs ps qs).map (fun l => (String.mk name, String.mk q) :: l)
    | _ => if p = q then matchSegs ps qs else none
  | _, _ => none

/-- Modelled from the spec: the matcher's lookup of one pattern against one
concrete path. -/
def matchPattern (pat path : String) : Option (List (String × String)) :=
  matchSegs (splitSegs pat.data) (splitSegs path.data)

/-- The route table: the matcher specialized to store `Route` values, as a
list of (pattern, entry) pairs. -/
abbrev RouteTable (Body Data Error : Type) : Type :=
  List (String × Route Body Data Error)

/-- Modelled from the spec: the matcher's `at(path)` — the first stored
pattern matching the path, with its entry and captured parameters. -/
def tableAt {Body Data Error : Type} :
    RouteTable Body Data Error → String →
    Option (Route Body Data Error × List (String × String))
  | [], _ => none
  | (pat, route) :: rest, path =>
    match matchPattern pat path with
    | some ps => some (route, ps)
    | none => tableAt rest path

/-- Modelled from the spec: the matcher's `at_mut(path)` followed by a
mutation of the matched entry; `none` when no pattern matches. -/
def tableMod {Body Data Error : Type}
    (f : Route Body Data Error → Route Body Data Error) :
    RouteTable Body Data Error → String → Option (RouteTable Body Data Error)
  | [], _ => none
  | (pat, route) :: rest, path =>
    match matchPattern pat path with
    | some _ => some ((pat, f route) :: rest)
    | none => (tableMod f rest path).map (fun t => (pat, route) :: t)

/-- The body of `Router::insert_handler` acting on the locked table: if the
path (as a concrete path) matches an existing entry, insert/overwrite the
`method → handler` binding in place; otherwise insert a fresh entry holding
just that binding. -/
def RouteTable.insertHandler {Body Data Error : Type}
    (t : RouteTable Body Data Error) (path : String) (method : Method)
    (h : AsyncUnsyncHandler Body Data Error) : RouteTable Body Data Error :=
  match tableMod (fun r => { r with handlers := hmInsert r.handlers method h }) t path with
  | some t' => t'
  | none => t ++ [(path, { handlers := hmInsert [] method h, catchall := none })]

/-- The body of `Router::any` acting on the locked table: set/overwrite the
catchall slot of the matched entry, or insert a fresh entry with only a
catchall. -/
def RouteTable.insertCatchall {Body Data Error : Type}
    (t : RouteTable Body Data Error) (path : String)
    (h : AsyncUnsyncHandler Body Data Error) : RouteTable Body Data Error :=
  match tableMod (fun r => { r with catchall := some h }) t path with
  | some t' => t'
  | none => t ++ [(path, { handlers := [], catchall := some h })]

/-- The heap of `Arc<RwLock<MatchRouter<Route>>>` allocations: a `Router`'s
`inner` field is an index into it, and clones share the index. -/
abbrev Tables (Body Data Error : Type) : Type :=
  List (RouteTable Body Data Error)

/-- `unsync::Router`: a shared reference to a route table plus the data. -/
structure Router (Body Data Error : Type) where
  inner : Nat
  data : Data

/-- `Router::new()`: a fresh empty table, unit data. -/
def Router.new {Body Error : Type} (st : Tables Body Unit Error) :
    Tables Body Unit Error × Router Body Unit Error :=
  (st ++ [[]], { inner := st.length, data := () })

/-- `Router::with_data(data)`: a fresh empty table carrying `data`. -/
def Router.with_data {Body Data Error : Type} (st : Tables Body Data Error)
    (d : Data) : Tables Body Data Error × Router Body Data Error :=
  (st ++ [[]], { inner := st.length, data := d })

/-- `Router::insert_handler`: write-lock the shared table and apply the
table-level insertion; the router handle is returned for chaining. -/
def Router.insert_handler {Body Data Error : Type} (st : Tables Body Data Error)
    (r : Router Body Data Error) (path : String) (method : Method)
    (h : Request Body → RouteContext Data → Except Error (Response Body)) :
    Tables Body Data Error × Router Body Data Error :=
  (st.set r.inner (RouteTable.insertHandler (st.getD r.inner []) path method { fn := h }), r)

/-- `Router::get`. -/
def Router.get {Body Data Error : Type} (st : Tables Body Data Error)
    (r : Router Body Data Error) (path : String)
    (h : Request Body → RouteContext Data → Except Error (Response Body)) :
    Tables Body Data Error × Router Body Data Error :=
  Router.insert_handler st r path Method.GET h

/-- `Router::post`. -/
def Router.post {Body Data Error : Type} (st : Tables Body Data Error)
    (r : Router Body Data Error) (path : String)
    (h : Request Body → RouteContext Data → Except Error (Response Body)) :
    Tables Body Data Error × Router Body Data Error :=
  Router.insert_handler st r path Method.POST h

/-- `Router::put`. -/
def Router.put {Body Data Error : Type} (st : Tables Body Data Error)
    (r : Router Body Data Error) (path : String)
    (h : Request Body → RouteContext Data → Except Error (Response Body)) :
    Tables Body Data Error × Router Body Data Error :=
  Router.insert_handler st r path Method.PUT h

/-- `Router::delete`. -/
def Router.delete {Body Data Error : Type} (st : Tables Body Data Error)
    (r : Router Body Data Error) (path : String)
    (h : Request Body → RouteContext Data → Except Error (Response Body)) :
    Tables Body Data Error × Router Body Data Error :=
  Router.insert_handler st r path Method.DELETE h

/-- `Router::head`. -/
def Router.head {Body Data Error : Type} (st : Tables Body Data Error)
    (r : Router Body Data Error) (path : String)
    (h : Request Body → RouteContext Data → Except Error (Response Body)) :
    Tables Body Data Error × Router Body Data Error :=
  Router.insert_handler st r path Method.HEAD h

/-- Mirrors `Router::options`, documented as "Registers a route requiring the
`OPTIONS` method"; its body (unsync.rs line 148) passes `Method::DELETE` to
`insert_handler`. -/
def Router.options {Body Data Error : Type} (st : Tables Body Data Error)
    (r : Router Body Data Error) (path : String)
    (h : Request Body → RouteContext Data → Except Error (Response Body)) :
    Tables Body Data Error × Router Body Data Error :=
  Router.insert_handler st r path Method.DELETE h

/-- `Router::patch`. -/
def Router.patch {Body Data Error : Type} (st : Tables Body Data Error)
    (r : Router Body Data Error) (path : String)
    (h : Request Body → RouteContext Data → Except Error (Response Body)) :
    Tables Body Data Error × Router Body Data Error :=
  Router.insert_handler st r path Method.PATCH h

/-- `Router::any`: write-lock the shared table and set the catchall slot. -/
def Router.any {Body Data Error : Type} (st : Tables Body Data Error)
    (r : Router Body Data Error) (path : String)
    (h : Request Body → RouteContext Data → Except Error (Response Body)) :
    Tables Body Data Error × Router Body Data Error :=
  (st.set r.inner (RouteTable.insertCatchall (st.getD r.inner []) path { fn := h }), r)

/-- `Clone for Router`: the `Arc` (the `inner` index) is shared and the data
is cloned by value. -/
def Router.clone {Body Data Error : Type} (r : Router Body Data Error) :
    Router Body Data Error :=
  { inner := r.inner, data := r.data }

/-- The parameter map built in `Service::call`: iterate over the matcher's
captures, inserting each into a fresh map. -/
def buildParams (ps : List (String × String)) : List (String × String) :=
  ps.foldl (fun m nv => hmInsert m nv.1 nv.2) []

/-- The `RouteContext` value built in `Service::call`: the captured-parameter
map plus a clone of the router's data. -/
def mkCtx {Data : Type} (d : Data) (ps : List (String × String)) :
    RouteContext Data :=
  { data := d, params := buildParams ps }

/-- `RouteContext::param`: exact lookup of the captured value by name. -/
def RouteContext.param {Data : Type} (ctx : RouteContext Data) (name : String) :
    Option String :=
  hmGet ctx.params name

/-- The outcome of driving the future returned by `Service::call`: either the
resolved `Result`, or a panic (the `unwrap` in the not-found branch). -/
inductive CallOutcome (Body Error : Type) where
  | result (r : Except Error (Response Body))
  | panicked

/-- The not-found response construction of `Service::call` lines 56–59:
`Response::builder().status(StatusCode::NOT_FOUND).body(Body::default())`. -/
def notFoundBuilt (Body : Type) [Inhabited Body] : Except HttpError (Response Body) :=
  ResponseBuilder.body (ResponseBuilder.status Response.builder StatusCode.NOT_FOUND) default

/-- The not-found branch of `Service::call`: build the 404 response and
unwrap it — a builder error would be a panic. -/
def notFoundOutcome (Body Error : Type) [Inhabited Body] : CallOutcome Body Error :=
  match notFoundBuilt Body with
  | Except.ok r => CallOutcome.result (Except.ok r)
  | Except.error _ => CallOutcome.panicked

/-- `Service::call` for `Router`: read-lock the table, query the matcher with
the request's path; on a match build the context and try the request's method
then the catchall; otherwise (or when the entry offers neither) produce the
default 404. -/
def Router.call {Body Data Error : Type} [Inhabited Body]
    (st : Tables Body Data Error) (r : Router Body Data Error)
    (req : Request Body) : CallOutcome Body Error :=
  match tableAt (st.getD r.inner []) req.path with
  | some (route, ps) =>
    let ctx := mkCtx r.data ps
    match hmGet route.handlers req.method with
    | some h => CallOutcome.result (h.fn req ctx)
    | none =>
      match route.catchall with
      | some h => CallOutcome.result (h.fn req ctx)
      | none => notFoundOutcome Body Error
  | none => notFoundOutcome Body Error

/-- The branch `Service::call` selects: a method handler, the catchall, or
the not-found default (with the context the selected handler receives). -/
inductive Dispatch (Body Data Error : Type) where
  | methodHandler (h : AsyncUnsyncHandler Body Data Error) (ctx : RouteContext Data)
  | catchallHandler (h : AsyncUnsyncHandler Body Data Error) (ctx : RouteContext Data)
  | notFound

/-- The branch-selection part of `Service::call`, with the same scrutinees in
the same order. -/
def Router.dispatch {Body Data Error : Type} (st : Tables Body Data Error)
    (r : Router Body Data Error) (req : Request Body) :
    Dispatch Body Data Error :=
  match tableAt (st.getD r.inner []) req.path with
  | some (route, ps) =>
    let ctx := mkCtx r.data ps
    match hmGet route.handlers req.method with
    | some h => Dispatch.methodHandler h ctx
    | none =>
      match route.catchall with
      | some h => Dispatch.catchallHandler h ctx
      | none => Dispatch.notFound
  | none => Dispatch.notFound

/-- Interpretation of a selected branch as the call outcome. -/
def runDispatch {Body Data Error : Type} [Inhabited Body] (req : Request Body) :
    Dispatch Body Data Error → CallOutcome Body Error
  | Dispatch.methodHandler h ctx => CallOutcome.result (h.fn req ctx)
  | Dispatch.catchallHandler h ctx => CallOutcome.result (h.fn req ctx)
  | Dispatch.notFound => notFoundOutcome Body Error

/-- `Router.call` is exactly the interpretation of the branch
`Router.dispatch` selects. -/
theorem call_eq_runDispatch {Body Data Error : Type} [Inhabited Body]
    (st : Tables Body Data Error) (r : Router Body Data Error)
    (req : Request Body) :
    Router.call st r req = runDispatch req (Router.dispatch st r req) := by
  cases htab : tableAt (st.getD r.inner []) req.path with
  | none => simp only [Router.call, Router.dispatch, runDispatch, htab]
  | some x =>
    obtain ⟨route, ps⟩ := x
    cases hh : hmGet route.handlers req.method with
    | some h => simp only [Router.call, Router.dispatch, runDispatch, htab, hh]
    | none =>
      cases hc : route.catchall with
      | some h => simp only [Router.call, Router.dispatch, runDispatch, htab, hh, hc]
      | none => simp only [Router.call, Router.dispatch, runDispatch, htab, hh, hc]

/-- `notFoundOutcome` is the success-typed default 404 response. -/
theorem notFoundOutcome_eq {Body Error : Type} [Inhabited Body] :
    notFoundOutcome Body Error =
      CallOutcome.result (Except.ok { status := 404, body := default }) := rfl

theorem hmGet_hmInsert_self {K V : Type} [DecidableEq K]
    (m : List (K × V)) (k : K) (v : V) :
    hmGet (hmInsert m k v) k = some v := by
  induction m with
  | nil => simp [hmInsert, hmGet]
  | cons kv rest ih =>
    obtain ⟨k', v'⟩ := kv
    by_cases h : k' = k
    · subst h
      simp [hmInsert, hmGet]
    · simp [hmInsert, hmGet, h, ih]

theorem hmGet_hmInsert_ne {K V : Type} [DecidableEq K]
    (m : List (K × V)) (k k' : K) (v : V) (hne : k' ≠ k) :
    hmGet (hmInsert m k v) k' = hmGet m k' := by
  induction m with
  | nil => simp [hmInsert, hmGet, Ne.symm hne]
  | cons kv rest ih =>
    obtain ⟨k0, v0⟩ := kv
    by_cases h : k0 = k
    · subst h
      simp only [hmInsert, if_pos rfl, hmGet, if_neg (Ne.symm hne)]
    · simp only [hmInsert, if_neg h, hmGet]
      by_cases h2 : k0 = k'
      · simp [h2]
      · simp [h2, ih]

theorem hmGet_foldl_of_not_mem {K V : Type} [DecidableEq K]
    (ps : List (K × V)) (m : List (K × V)) (n : K)
    (hn : n ∉ ps.map Prod.fst) :
    hmGet (ps.foldl (fun acc nv => hmInsert acc nv.1 nv.2) m) n = hmGet m n := by
  induction ps generalizing m with
  | nil => rfl
  | cons kv rest ih =>
    obtain ⟨k, v⟩ := kv
    simp only [List.map_cons, List.mem_cons] at hn
    push_neg at hn
    simp only [List.foldl_cons]
    rw [ih _ hn.2, hmGet_hmInsert_ne _ _ _ _ hn.1]

theorem hmGet_foldl_of_mem {K V : Type} [DecidableEq K]
    (ps : List (K × V)) (m : List (K × V)) (n : K) (v : V)
    (hnd : (ps.map Prod.fst).Nodup) (hmem : (n, v) ∈ ps) :
    hmGet (ps.foldl (fun acc nv => hmInsert acc nv.1 nv.2) m) n = some v := by
  induction ps generalizing m with
  | nil => cases hmem
  | cons kv rest ih =>
    obtain ⟨k, w⟩ := kv
    simp only [List.map_cons, List.nodup_cons] at hnd
    rcases List.mem_cons.mp hmem with heq | hmem'
    · obtain ⟨rfl, rfl⟩ := Prod.mk.injEq .. |>.mp heq
      simp only [List.foldl_cons]
      rw [hmGet_foldl_of_not_mem _ _ _ hnd.1, hmGet_hmInsert_self]
    · simp only [List.foldl_cons]
      exact ih _ hnd.2 hmem'

/-! Concrete values used by the closed instances below. -/

def pathX : String := "/x"

def pathMissing : String := "/missing"

def patUsersId : String := "/users/:id"

def pathUsers42 : String := "/users/42"

def nameId : String := "id"

def nameOther : String := "name"

def nameIdCap : String := "Id"

def val42 : String := "42"

/-- A handler that ignores its arguments and succeeds with a given status. -/
def hConst (n : Nat) : Request Unit → RouteContext Unit → Except Nat (Response Unit) :=
  fun _ _ => Except.ok { status := n, body := () }

/-- A handler that fails with a given error value. -/
def hFail (e : Nat) : Request Unit → RouteContext Unit → Except Nat (Response Unit) :=
  fun _ _ => Except.error e

def newRouter0 : Tables Unit Unit Nat × Router Unit Unit Nat :=
  Router.new []

def reqOptionsX : Request Unit :=
  { method := Method.OPTIONS, path := pathX, body := () }

def reqDeleteX : Request Unit :=
  { method := Method.DELETE, path := pathX, body := () }

def reqGetMissing : Request Unit :=
  { method := Method.GET, path := pathMissing, body := () }

/-- The router of the C1 scenario: fresh router, `options("/x", hConst 200)`. -/
def c1State : Tables Unit Unit Nat × Router Unit Unit Nat :=
  Router.options newRouter0.1 newRouter0.2 pathX (hConst 200)

/-- C1: `options(p, h)` is documented and specified to register `h` under the
OPTIONS method, but the source body passes `Method::DELETE`; after
`options("/x", h)` an OPTIONS request to `/x` gets the default 404 while a
DELETE request to `/x` invokes `h`. -/
theorem options_registers_delete_not_options :
    Router.call c1State.1 c1State.2 reqOptionsX =
      CallOutcome.result (Except.ok { status := 404, body := () }) ∧
    Router.call c1State.1 c1State.2 reqDeleteX =
      CallOutcome.result (Except.ok { status := 200, body := () }) :=
  ⟨rfl, rfl⟩

/-- C2: dispatch selects the not-found branch exactly when no pattern matches
the request's path, or the matched entry has neither a handler for the
request's method nor a catchall; in that case the call outcome is the
success-typed default 404 response (the same value in all such cases). -/
theorem not_found_exactly_when_unrouted {Body Data Error : Type} [Inhabited Body]
    (st : Tables Body Data Error) (r : Router Body Data Error)
    (req : Request Body) :
    (Router.dispatch st r req = Dispatch.notFound ↔
      (match tableAt (st.getD r.inner []) req.path with
       | none => True
       | some (route, _) =>
         hmGet route.handlers req.method = none ∧ route.catchall = none)) ∧
    (Router.dispatch st r req = Dispatch.notFound →
      Router.call st r req =
        CallOutcome.result (Except.ok { status := 404, body := default })) := by
  constructor
  · cases htab : tableAt (st.getD r.inner []) req.path with
    | none =>
      simp only [Router.dispatch, htab]
    | some x =>
      obtain ⟨route, ps⟩ := x
      cases hh : hmGet route.handlers req.method with
      | some h =>
        simp only [Router.dispatch, htab, hh]
        simp
      | none =>
        cases hc : route.catchall with
        | some h =>
          simp only [Router.dispatch, htab, hh, hc]
          simp
        | none =>
          simp only [Router.dispatch, htab, hh, hc]
          simp
  · intro hd
    rw [call_eq_runDispatch, hd]
    exact notFoundOutcome_eq

/-- C2 witness: an empty router answers `GET /missing` with the default
404. -/
theorem not_found_exactly_when_unrouted_witness :
    Router.call newRouter0.1 newRouter0.2 reqGetMissing =
      CallOutcome.result (Except.ok { status := 404, body := () }) :=
  (not_found_exactly_when_unrouted newRouter0.1 newRouter0.2 reqGetMissing).2 rfl

/-- C7: whenever dispatch selects a handler (method-specific or catchall),
the call outcome is exactly that handler's own `Result`, with no
transformation or wrapping by the dispatch engine. -/
theorem handler_result_propagates_verbatim {Body Data Error : Type} [Inhabited Body]
    (st : Tables Body Data Error) (r : Router Body Data Error)
    (req : Request Body) (h : AsyncUnsyncHandler Body Data Error)
    (ctx : RouteContext Data) :
    (Router.dispatch st r req = Dispatch.methodHandler h ctx →
      Router.call st r req = CallOutcome.result (h.fn req ctx)) ∧
    (Router.dispatch st r req = Dispatch.catchallHandler h ctx →
      Router.call st r req = CallOutcome.result (h.fn req ctx)) := by
  constructor
  · intro hd
    rw [call_eq_runDispatch, hd]
    rfl
  · intro hd
    rw [call_eq_runDispatch, hd]
    rfl

/-- The router of the C7 witness: fresh router, `get("/x", hFail 7)`. -/
def c7State : Tables Unit Unit Nat × Router Unit Unit Nat :=
  Router.get newRouter0.1 newRouter0.2 pathX (hFail 7)

def reqGetX : Request Unit :=
  { method := Method.GET, path := pathX, body := () }

/-- C7 witness: a handler failing with error `7` makes the call resolve to
exactly `Err(7)`. -/
theorem handler_result_propagates_verbatim_witness :
    Router.call c7State.1 c7State.2 reqGetX =
      CallOutcome.result (Except.error 7) :=
  (handler_result_propagates_verbatim c7State.1 c7State.2 reqGetX
    { fn := hFail 7 } (mkCtx () [])).1 rfl

/-- C10: the builder chain for the default 404 response succeeds (the status
is the already-valid `StatusCode::NOT_FOUND` and no header is added), so the
`unwrap` in the no-match branch cannot panic and `call` is total. -/
theorem not_found_unwrap_never_panics {Body Data Error : Type} [Inhabited Body]
    (st : Tables Body Data Error) (r : Router Body Data Error)
    (req : Request Body) :
    notFoundBuilt Body = Except.ok { status := 404, body := default } ∧
    Router.call st r req ≠ CallOutcome.panicked := by
  refine ⟨rfl, ?_⟩
  rw [call_eq_runDispatch]
  cases Router.dispatch st r req with
  | methodHandler h ctx => simp [runDispatch]
  | catchallHandler h ctx => simp [runDispatch]
  | notFound =>
    simp only [runDispatch, notFoundOutcome_eq]
    simp

/-- C10 witness: the theorem applied to an empty router and a request it
cannot route. -/
theorem not_found_unwrap_never_panics_witness :
    notFoundBuilt Unit = Except.ok { status := 404, body := () } ∧
    Router.call newRouter0.1 newRouter0.2 reqGetMissing ≠ CallOutcome.panicked :=
  not_found_unwrap_never_panics newRouter0.1 newRouter0.2 reqGetMissing

/-- Inserting into an empty table creates a single entry with one binding. -/
theorem insertHandler_nil {Body Data Error : Type} (P : String) (M : Method)
    (h : AsyncUnsyncHandler Body Data Error) :
    RouteTable.insertHandler ([] : RouteTable Body Data Error) P M h =
      [(P, { handlers := [(M, h)], catchall := none })] := rfl

/-- When the registration path matches the single stored pattern, the entry
is mutated in place. -/
theorem insertHandler_self_match {Body Data Error : Type} (P : String)
    (R : Route Body Data Error) (M : Method)
    (h : AsyncUnsyncHandler Body Data Error) (ps0 : List (String × String))
    (hself : matchPattern P P = some ps0) :
    RouteTable.insertHandler [(P, R)] P M h =
      [(P, { R with handlers := hmInsert R.handlers M h })] := by
  simp only [RouteTable.insertHandler, tableMod, hself]

/-- Lookup in a single-entry table whose pattern matches the path. -/
theorem tableAt_single {Body Data Error : Type} (P q : String)
    (R : Route Body Data Error) (ps : List (String × String))
    (hmatch : matchPattern P q = some ps) :
    tableAt [(P, R)] q = some (R, ps) := by
  simp only [tableAt, hmatch]

/-- C3: on a pattern carrying both a method handler and a catchall, a request
with the registered method is served by the method handler, and a request
with a method that has no binding is served by the catchall. -/
theorem method_handler_beats_catchall {Body Data Error : Type} [Inhabited Body]
    (st : Tables Body Data Error) (r : Router Body Data Error)
    (reqM reqN : Request Body) (route : Route Body Data Error)
    (ps : List (String × String)) (h hc : AsyncUnsyncHandler Body Data Error)
    (hatM : tableAt (st.getD r.inner []) reqM.path = some (route, ps))
    (hatN : tableAt (st.getD r.inner []) reqN.path = some (route, ps))
    (hm : hmGet route.handlers reqM.method = some h)
    (hcc : route.catchall = some hc)
    (hn : hmGet route.handlers reqN.method = none) :
    Router.call st r reqM = CallOutcome.result (h.fn reqM (mkCtx r.data ps)) ∧
    Router.call st r reqN = CallOutcome.result (hc.fn reqN (mkCtx r.data ps)) := by
  constructor
  · simp only [Router.call, hatM, hm]
  · simp only [Router.call, hatN, hn, hcc]

def c3StateA : Tables Unit Unit Nat × Router Unit Unit Nat :=
  Router.get newRouter0.1 newRouter0.2 pathX (hConst 200)

/-- The router of the C3 witness: `get("/x", 200)` then `any("/x", 201)`. -/
def c3State : Tables Unit Unit Nat × Router Unit Unit Nat :=
  Router.any c3StateA.1 c3StateA.2 pathX (hConst 201)

def reqPostX : Request Unit :=
  { method := Method.POST, path := pathX, body := () }

/-- C3 witness: `GET /x` gets the method handler's 200, `POST /x` the
catchall's 201. -/
theorem method_handler_beats_catchall_witness :
    Router.call c3State.1 c3State.2 reqGetX =
      CallOutcome.result (Except.ok { status := 200, body := () }) ∧
    Router.call c3State.1 c3State.2 reqPostX =
      CallOutcome.result (Except.ok { status := 201, body := () }) :=
  method_handler_beats_catchall c3State.1 c3State.2 reqGetX reqPostX _ _ _ _
    rfl rfl rfl rfl rfl

/-- C4: registering `h1` then `h2` for the same (pattern, method) pair on a
fresh router leaves only `h2`: a matching request of that method resolves to
`h2`'s result, independently of `h1`. -/
theorem reregistration_replaces {Body Data Error : Type} [Inhabited Body]
    (P : String) (d : Data)
    (h1 h2 : Request Body → RouteContext Data → Except Error (Response Body))
    (req : Request Body) (ps0 ps : List (String × String))
    (hself : matchPattern P P = some ps0)
    (hmatch : matchPattern P req.path = some ps) :
    (let s1 := Router.with_data ([] : Tables Body Data Error) d
     let s2 := Router.insert_handler s1.1 s1.2 P req.method h1
     let s3 := Router.insert_handler s2.1 s2.2 P req.method h2
     Router.call s3.1 s3.2 req) = CallOutcome.result (h2 req (mkCtx d ps)) := by
  simp only [Router.with_data, Router.insert_handler, Router.call,
    List.nil_append, List.length_nil, List.getD_cons_zero, List.set_cons_zero,
    insertHandler_nil, insertHandler_self_match P _ _ _ _ hself]
  simp [tableAt_single P _ _ _ hmatch, hmInsert, hmGet]

def c4StateA : Tables Unit Unit Nat × Router Unit Unit Nat :=
  Router.get newRouter0.1 newRouter0.2 pathX (hConst 200)

/-- The router of the C4 witness: `get("/x", 200)` then `get("/x", 201)`. -/
def c4State : Tables Unit Unit Nat × Router Unit Unit Nat :=
  Router.insert_handler c4StateA.1 c4StateA.2 pathX Method.GET (hConst 201)

/-- C4 witness: after re-registering, `GET /x` answers with the second
handler's 201. -/
theorem reregistration_replaces_witness :
    Router.call c4State.1 c4State.2 reqGetX =
      CallOutcome.result (Except.ok { status := 201, body := () }) :=
  reregistration_replaces pathX () (hConst 200) (hConst 201) reqGetX [] []
    rfl rfl

/-- C5: registering distinct methods M and N on the same pattern of a fresh
router preserves both handlers, keeps a single route entry under the original
pattern (in-place mutation), and dispatches each method to its own
handler. -/
theorem distinct_methods_preserved {Body Data Error : Type} [Inhabited Body]
    (P : String) (d : Data)
    (hM hN : Request Body → RouteContext Data → Except Error (Response Body))
    (reqM reqN : Request Body) (ps0 psM psN : List (String × String))
    (hMN : reqM.method ≠ reqN.method)
    (hself : matchPattern P P = some ps0)
    (hmM : matchPattern P reqM.path = some psM)
    (hmN : matchPattern P reqN.path = some psN) :
    (let s1 := Router.with_data ([] : Tables Body Data Error) d
     let s2 := Router.insert_handler s1.1 s1.2 P reqM.method hM
     let s3 := Router.insert_handler s2.1 s2.2 P reqN.method hN
     (s3.1.getD s3.2.inner []).map Prod.fst = [P] ∧
     Router.call s3.1 s3.2 reqM = CallOutcome.result (hM reqM (mkCtx d psM)) ∧
     Router.call s3.1 s3.2 reqN = CallOutcome.result (hN reqN (mkCtx d psN))) := by
  simp only [Router.with_data, Router.insert_handler, Router.call,
    List.nil_append, List.length_nil, List.getD_cons_zero, List.set_cons_zero,
    insertHandler_nil, insertHandler_self_match P _ _ _ _ hself]
  refine ⟨by simp, ?_, ?_⟩
  · simp [tableAt_single P _ _ _ hmM, hmInsert, hmGet, if_neg hMN]
  · simp [tableAt_single P _ _ _ hmN, hmInsert, hmGet, if_neg hMN,
      Ne.symm hMN]

def c5StateA : Tables Unit Unit Nat × Router Unit Unit Nat :=
  Router.get newRouter0.1 newRouter0.2 pathX (hConst 200)

/-- The router of the C5 witness: `get("/x", 200)` then `post("/x", 201)`. -/
def c5State : Tables Unit Unit Nat × Router Unit Unit Nat :=
  Router.post c5StateA.1 c5StateA.2 pathX (hConst 201)

/-- C5 witness: both methods stay registered on the single entry and each
request reaches its own handler. -/
theorem distinct_methods_preserved_witness :
    (c5State.1.getD c5State.2.inner []).map Prod.fst = [pathX] ∧
    Router.call c5State.1 c5State.2 reqGetX =
      CallOutcome.result (Except.ok { status := 200, body := () }) ∧
    Router.call c5State.1 c5State.2 reqPostX =
      CallOutcome.result (Except.ok { status := 201, body := () }) :=
  distinct_methods_preserved pathX () (hConst 200) (hConst 201) reqGetX reqPostX
    [] [] [] (by decide) rfl rfl rfl

/-- C6: when a request matches a pattern, the invoked handler receives the
context built from the captured parameters, and `param` returns exactly the
captured value for a present name (an exact, case-sensitive match) and `none`
for any name not in the map. -/
theorem route_context_param_captures {Body Data Error : Type} [Inhabited Body]
    (st : Tables Body Data Error) (r : Router Body Data Error)
    (req : Request Body) (route : Route Body Data Error)
    (ps : List (String × String)) (n v : String)
    (hat : tableAt (st.getD r.inner []) req.path = some (route, ps))
    (hnd : (ps.map Prod.fst).Nodup) :
    (∀ h, hmGet route.handlers req.method = some h →
      Router.call st r req = CallOutcome.result (h.fn req (mkCtx r.data ps))) ∧
    ((n, v) ∈ ps → (mkCtx r.data ps).param n = some v) ∧
    (n ∉ ps.map Prod.fst → (mkCtx r.data ps).param n = none) := by
  refine ⟨?_, ?_, ?_⟩
  · intro h hm
    simp only [Router.call, hat, hm]
  · intro hmem
    show hmGet (buildParams ps) n = some v
    exact hmGet_foldl_of_mem ps [] n v hnd hmem
  · intro hn
    show hmGet (buildParams ps) n = none
    exact (hmGet_foldl_of_not_mem ps [] n hn).trans rfl

/-- The router of the C6 witness: `get("/users/:id", 200)`. -/
def c6State : Tables Unit Unit Nat × Router Unit Unit Nat :=
  Router.get newRouter0.1 newRouter0.2 patUsersId (hConst 200)

def reqGetUsers42 : Request Unit :=
  { method := Method.GET, path := pathUsers42, body := () }

/-- C6 witness: `GET /users/42` against `/users/:id` invokes the handler with
a context where `param("id")` is `"42"` while `param("name")` and the
differently-cased `param("Id")` are `none`. -/
theorem route_context_param_captures_witness :
    Router.call c6State.1 c6State.2 reqGetUsers42 =
      CallOutcome.result (Except.ok { status := 200, body := () }) ∧
    (mkCtx () [(nameId, val42)]).param nameId = some val42 ∧
    (mkCtx () [(nameId, val42)]).param nameOther = none ∧
    (mkCtx () [(nameId, val42)]).param nameIdCap = none := by
  obtain ⟨hcall, hmem, -⟩ :=
    route_context_param_captures c6State.1 c6State.2 reqGetUsers42 _
      [(nameId, val42)] nameId val42 rfl (by decide)
  obtain ⟨-, -, hnm⟩ :=
    route_context_param_captures c6State.1 c6State.2 reqGetUsers42 _
      [(nameId, val42)] nameOther val42 rfl (by decide)
  obtain ⟨-, -, hcap⟩ :=
    route_context_param_captures c6State.1 c6State.2 reqGetUsers42 _
      [(nameId, val42)] nameIdCap val42 rfl (by decide)
  exact ⟨hcall _ rfl, hmem (by decide), hnm (by decide), hcap (by decide)⟩

/-- C8: a clone shares the route table (the same `inner` allocation): a
handler registered through the clone is reached by a call through the
original and conversely, while the data slot is duplicated by value. -/
theorem clones_share_route_table {Body Data Error : Type} [Inhabited Body]
    (d : Data) (P : String)
    (hf : Request Body → RouteContext Data → Except Error (Response Body))
    (req : Request Body) (ps : List (String × String))
    (hmatch : matchPattern P req.path = some ps)
    (hmethod : req.method = Method.GET) :
    (let s1 := Router.with_data ([] : Tables Body Data Error) d
     let s2 := Router.get s1.1 (Router.clone s1.2) P hf
     Router.call s2.1 s1.2 req = CallOutcome.result (hf req (mkCtx d ps))) ∧
    (let s1 := Router.with_data ([] : Tables Body Data Error) d
     let s2 := Router.get s1.1 s1.2 P hf
     Router.call s2.1 (Router.clone s1.2) req = CallOutcome.result (hf req (mkCtx d ps))) ∧
    (∀ r : Router Body Data Error,
      (Router.clone r).inner = r.inner ∧ (Router.clone r).data = r.data) := by
  refine ⟨?_, ?_, fun r => ⟨rfl, rfl⟩⟩ <;>
  · simp only [Router.with_data, Router.clone, Router.get, Router.insert_handler,
      Router.call, List.nil_append, List.length_nil, List.getD_cons_zero,
      List.set_cons_zero, insertHandler_nil]
    simp [tableAt_single P _ _ _ hmatch, hmGet, hmethod]

def c8StateA : Tables Unit Unit Nat × Router Unit Unit Nat :=
  Router.with_data [] ()

/-- The C8 witness registration: `get("/x", 200)` performed through a clone
of the freshly created router. -/
def c8State : Tables Unit Unit Nat × Router Unit Unit Nat :=
  Router.get c8StateA.1 (Router.clone c8StateA.2) pathX (hConst 200)

/-- C8 witness: the original router serves the route registered through its
clone. -/
theorem clones_share_route_table_witness :
    Router.call c8State.1 c8StateA.2 reqGetX =
      CallOutcome.result (Except.ok { status := 200, body := () }) :=
  (clones_share_route_table () pathX (hConst 200) reqGetX [] rfl rfl).1

/-- C9: method selection is exact: when the matched entry has no handler for
the request's method, dispatch goes to the catchall if present and otherwise
to not-found — never to a handler registered under a different method. -/
theorem no_cross_method_fallback {Body Data Error : Type}
    (st : Tables Body Data Error) (r : Router Body Data Error)
    (req : Request Body) (route : Route Body Data Error)
    (ps : List (String × String))
    (hat : tableAt (st.getD r.inner []) req.path = some (route, ps))
    (hnone : hmGet route.handlers req.method = none) :
    (Router.dispatch st r req =
      match route.catchall with
      | some hc => Dispatch.catchallHandler hc (mkCtx r.data ps)
      | none => Dispatch.notFound) ∧
    (∀ h ctx, Router.dispatch st r req ≠ Dispatch.methodHandler h ctx) := by
  have hd : Router.dispatch st r req =
      match route.catchall with
      | some hc => Dispatch.catchallHandler hc (mkCtx r.data ps)
      | none => Dispatch.notFound := by
    simp only [Router.dispatch, hat, hnone]
  refine ⟨hd, fun h ctx hcontra => ?_⟩
  rw [hd] at hcontra
  cases hc : route.catchall with
  | some x =>
    rw [hc] at hcontra
    exact Dispatch.noConfusion hcontra
  | none =>
    rw [hc] at hcontra
    exact Dispatch.noConfusion hcontra

def reqHeadX : Request Unit :=
  { method := Method.HEAD, path := pathX, body := () }

/-- C9 witness: on a router with only `get("/x", …)` and no catchall, a HEAD
request to `/x` dispatches to not-found, not to the GET handler. -/
theorem no_cross_method_fallback_witness :
    Router.dispatch c7State.1 c7State.2 reqHeadX = Dispatch.notFound ∧
    (∀ h ctx, Router.dispatch c7State.1 c7State.2 reqHeadX ≠
      Dispatch.methodHandler h ctx) :=
  no_cross_method_fallback c7State.1 c7State.2 reqHeadX _ _ rfl rfl

end RouterService
